import Mathlib

/-!
Verification of the Leneda Home Assistant integration's data-synchronization
coordinator (`custom_components/leneda/coordinator.py` and
`custom_components/leneda/const.py`).

Shallow embedding conventions:
* timestamps are unix seconds as `ℤ` (Python `datetime.timestamp()` values at
  whole seconds);
* numeric measurement values and cumulative sums are `ℚ` (the Python code uses
  `float` only for exact decimal inputs and additions in the ranges exercised
  here);
* the persistence collaborator (the Home Assistant recorder) is external to the
  repository; it is modelled from the spec's section 6 contract:
  `get_last_entry(series_id) -> {end_timestamp, cumulative_sum} | absent`,
  where an hourly entry stored with period-start `s` has end timestamp
  `s + 3600`, and `append_entries` appends to the series;
* the remote Leneda API client is external; each fetch is a function supplied
  by an `Env`, returning either points or an API error.
-/

namespace Leneda

/-- One fetched data point of an aggregated time series: the Python
`AggregatedMeteringValue` with `started_at` (period-start timestamp) and
`value`. -/
structure Point where
  started_at : ℤ
  value : ℚ
  deriving DecidableEq

/-- One prepared statistics entry, mirroring the Home Assistant
`StatisticData(start=..., state=..., sum=...)` built in `_prepare_statistics`. -/
structure StatisticData where
  start : ℤ
  state : ℚ
  sum : ℚ
  deriving DecidableEq

/-- The row of existing statistics that `_prepare_statistics` reads:
`existing_stats[statistic_id][0]` with its `"end"` timestamp and `"sum"`
(the stored sum may be `None`). -/
structure StatsRow where
  endTs : ℤ
  sum : Option ℚ
  deriving DecidableEq

/-- Constant `DOMAIN = "leneda"` from `const.py`. -/
def DOMAIN : String := "leneda"

/-- Constant `STATISTICS_PERIOD_START = datetime(2000, 1, 1, 0, 0, 0, tzinfo=timezone.utc)`
from `const.py`, as a unix timestamp. -/
def STATISTICS_PERIOD_START : ℤ := 946684800

/-- One day (`timedelta(days=1)`) in seconds. -/
def oneDay : ℤ := 86400

/-- One hour bucket in seconds: the distance between an hourly statistics
entry's period-start and its end timestamp. -/
def hourSeconds : ℤ := 3600

/-- The per-character effect of `re.sub(r"[^a-z0-9]", "_", s.lower())` in
`_create_statistic_id`: a character in `[a-z0-9]` is kept, anything else is
replaced by an underscore. -/
def sanitizeChar (c : Char) : Char :=
  if ('a' ≤ c ∧ c ≤ 'z') ∨ ('0' ≤ c ∧ c ≤ '9') then c else '_'

/-- Substitution `re.sub(r"[^a-z0-9]", "_", s.lower())` applied to a whole string. -/
def cleanString (s : String) : String :=
  String.mk (s.data.map (fun c => sanitizeChar c.toLower))

/-- Function `_create_statistic_id(metering_point, obis)`:
`f"{DOMAIN}:{clean_mp}_{clean_obis}"`. -/
def _create_statistic_id (metering_point : String) (obis : String) : String :=
  DOMAIN ++ ":" ++ cleanString metering_point ++ "_" ++ cleanString obis

/-- The skip test of the reconciliation loop in `_prepare_statistics`:
`last_stats_time is not None and point.started_at.timestamp() <= last_stats_time`. -/
def skipPoint (last_stats_time : Option ℤ) (p : Point) : Bool :=
  match last_stats_time with
  | some t => decide (p.started_at ≤ t)
  | none => false

/-- The `for point in time_series` loop of `_prepare_statistics`: skipped
points leave the running sum unchanged; every other point adds its value to
the running sum and emits `StatisticData(start, state, sum)`. -/
def prepareLoop (last_stats_time : Option ℤ) : ℚ → List Point → List StatisticData
  | _, [] => []
  | last_sum, p :: rest =>
    if skipPoint last_stats_time p then prepareLoop last_stats_time last_sum rest
    else ⟨p.started_at, p.value, last_sum + p.value⟩ ::
      prepareLoop last_stats_time (last_sum + p.value) rest

/-- Local `last_stats_time` as computed by `_prepare_statistics`: the `"end"`
timestamp of the existing row, when present. -/
def lastStatsTimeOf (existing_stats : Option StatsRow) : Option ℤ :=
  existing_stats.map StatsRow.endTs

/-- Local `last_sum` as computed by `_prepare_statistics`: the stored `"sum"` when
the row exists and its sum is not `None`, else `0.0`. -/
def lastSumInit (existing_stats : Option StatsRow) : ℚ :=
  match existing_stats with
  | some row =>
    match row.sum with
    | some s => s
    | none => 0
  | none => 0

/-- Function `_prepare_statistics(statistic_id, time_series, existing_stats)`: the
Reconciliation Engine. -/
def _prepare_statistics (existing_stats : Option StatsRow) (time_series : List Point) :
    List StatisticData :=
  prepareLoop (lastStatsTimeOf existing_stats) (lastSumInit existing_stats) time_series

/-- The persistence collaborator's last-entry view of a stored series
(spec section 6 `get_last_entry`): the stored entry list's last element,
exposed as a row whose `"end"` is its period-start plus one hour and whose
`"sum"` is its cumulative sum. -/
def storeLastRow (series : List StatisticData) : Option StatsRow :=
  series.getLast?.map (fun e => ⟨e.start + hourSeconds, some e.sum⟩)

/-- The cumulative sum of the most recent entry of a stored series. -/
def storeFinalSum (series : List StatisticData) : Option ℚ :=
  series.getLast?.map StatisticData.sum

/-- Errors raised by the Leneda API client (`leneda.exceptions`): the
coordinator distinguishes `UnauthorizedException` from the other request
failures (forbidden / not-found). -/
inductive ApiError where
  | unauthorized
  | forbidden
  | notFound
  deriving DecidableEq

/-- The external world of one coordinator tick: the current time and the two
remote fetch primitives used by the coordinator (`get_aggregated_metering_data`
with granularity `"Hour"` for `_update_statistics` and with granularity
`"Infinite"` for `_get_current_total`). Each call yields points or an error. -/
structure Env where
  now : ℤ
  hourly : String → String → ℤ → ℤ → Except ApiError (List Point)
  total : String → String → Except ApiError (List Point)

/-- The statistics store: per statistic id, the append-only list of stored
entries (spec section 6 persistence collaborator). -/
abbrev Store := List (String × List StatisticData)

/-- The stored series for a statistic id (empty when the id has never been
written). -/
def storeGet (store : Store) (statistic_id : String) : List StatisticData :=
  match store with
  | [] => []
  | (k, v) :: rest => if k = statistic_id then v else storeGet rest statistic_id

/-- Operation `append_entries` of the persistence contract: appends entries to the series of a statistic id. -/
def storeAppend (store : Store) (statistic_id : String) (entries : List StatisticData) :
    Store :=
  match store with
  | [] => [(statistic_id, entries)]
  | (k, v) :: rest =>
    if k = statistic_id then (k, v ++ entries) :: rest
    else (k, v) :: storeAppend rest statistic_id entries

/-- Function `_get_statistics_start_date`: the `"end"` timestamp of the most recent
stored entry, or `STATISTICS_PERIOD_START` when no statistics exist. -/
def _get_statistics_start_date (last_stat_end : Option ℤ) : ℤ :=
  match last_stat_end with
  | none => STATISTICS_PERIOD_START
  | some e => e

/-- The `get_last_statistics` read used by `_get_statistics_start_date`:
end timestamp of the most recent stored entry of the series. -/
def get_last_statistics_end (store : Store) (statistic_id : String) : Option ℤ :=
  (storeGet store statistic_id).getLast?.map (fun e => e.start + hourSeconds)

/-- Function `_get_existing_statistics`: the stored row (end timestamp and sum) that
`_prepare_statistics` reconciles against. -/
def _get_existing_statistics (store : Store) (statistic_id : String) : Option StatsRow :=
  storeLastRow (storeGet store statistic_id)

/-- The spec's Fetch Window Planner (inline in `_update_statistics`,
lines 184-192): skip when `now - 1 day < start_date`, else the window
`[start_date - 1 day, now]`. -/
def planFetchWindow (now : ℤ) (last_stat_end : Option ℤ) : Option (ℤ × ℤ) :=
  if now - oneDay < _get_statistics_start_date last_stat_end then none
  else some (_get_statistics_start_date last_stat_end - oneDay, now)

/-- Function `_fetch_hourly_data`: one hourly aggregated fetch from the remote API. -/
def _fetch_hourly_data (env : Env) (metering_point obis : String)
    (start_date end_date : ℤ) : Except ApiError (List Point) :=
  env.hourly metering_point obis start_date end_date

/-- Function `_store_statistics`: append the prepared entries under the statistic id
(`async_add_external_statistics`). -/
def _store_statistics (store : Store) (statistic_id : String)
    (statistics : List StatisticData) : Store :=
  storeAppend store statistic_id statistics

/-- Function `_process_and_store_statistics`: read the existing row, prepare new
entries, and store them when any were produced. -/
def _process_and_store_statistics (store : Store) (statistic_id : String)
    (time_series : List Point) : Store :=
  let stats := _get_existing_statistics store statistic_id
  let statistics := _prepare_statistics stats time_series
  if statistics = [] then store
  else _store_statistics store statistic_id statistics

/-- The non-skip continuation of `_update_statistics` (lines 194-202): fetch
the window, do nothing when no points came back, else reconcile and store. -/
def fetchBranch (env : Env) (store : Store) (metering_point obis : String)
    (start_date end_date : ℤ) : Except ApiError Store :=
  match _fetch_hourly_data env metering_point obis start_date end_date with
  | Except.error e => Except.error e
  | Except.ok ts =>
    if ts = [] then Except.ok store
    else Except.ok (_process_and_store_statistics store
      (_create_statistic_id metering_point obis) ts)

/-- Function `_update_statistics`: plan the fetch window from the stored high-water
mark; return with the store untouched when there can be no new data, else run
the fetch-reconcile-store pipeline over `[start_date - 1 day, now]`. -/
def _update_statistics (env : Env) (store : Store) (metering_point obis : String) :
    Except ApiError Store :=
  if env.now - oneDay <
      _get_statistics_start_date
        (get_last_statistics_end store (_create_statistic_id metering_point obis)) then
    Except.ok store
  else
    fetchBranch env store metering_point obis
      (_get_statistics_start_date
        (get_last_statistics_end store (_create_statistic_id metering_point obis)) - oneDay)
      env.now

/-- The sum over all returned points in `_get_current_total`. -/
def sumPoints (ts : List Point) : ℚ := (ts.map Point.value).sum

/-- Function `_get_current_total`: fetch the year-to-date aggregation and sum all point
values; `None` when the fetch returns no points. -/
def _get_current_total (env : Env) (metering_point obis : String) :
    Except ApiError (Option ℚ) :=
  match env.total metering_point obis with
  | Except.error e => Except.error e
  | Except.ok ts =>
    if ts = [] then Except.ok none
    else Except.ok (some (sumPoints ts))

/-- Catalog `SENSOR_TYPES` from `const.py`, reduced to the mapping each tick actually
uses: sensor type name to OBIS code. The OBIS code values are opaque members
of the external `leneda.obis_codes.ObisCode` enumeration and are modelled by
their member names. -/
def SENSOR_TYPES : List (String × String) :=
  [ ("electricity_consumption_active", "ELEC_CONSUMPTION_ACTIVE"),
    ("electricity_consumption_reactive", "ELEC_CONSUMPTION_REACTIVE"),
    ("electricity_consumption_covered_layer1", "ELEC_CONSUMPTION_COVERED_LAYER1"),
    ("electricity_consumption_covered_layer2", "ELEC_CONSUMPTION_COVERED_LAYER2"),
    ("electricity_consumption_covered_layer3", "ELEC_CONSUMPTION_COVERED_LAYER3"),
    ("electricity_consumption_covered_layer4", "ELEC_CONSUMPTION_COVERED_LAYER4"),
    ("electricity_consumption_remaining", "ELEC_CONSUMPTION_REMAINING"),
    ("electricity_production_active", "ELEC_PRODUCTION_ACTIVE"),
    ("electricity_production_reactive", "ELEC_PRODUCTION_REACTIVE"),
    ("electricity_production_shared_layer1", "ELEC_PRODUCTION_SHARED_LAYER1"),
    ("electricity_production_shared_layer2", "ELEC_PRODUCTION_SHARED_LAYER2"),
    ("electricity_production_shared_layer3", "ELEC_PRODUCTION_SHARED_LAYER3"),
    ("electricity_production_shared_layer4", "ELEC_PRODUCTION_SHARED_LAYER4"),
    ("electricity_production_remaining", "ELEC_PRODUCTION_REMAINING"),
    ("gas_consumption_volume", "GAS_CONSUMPTION_VOLUME"),
    ("gas_consumption_standard_volume", "GAS_CONSUMPTION_STANDARD_VOLUME"),
    ("gas_consumption_energy", "GAS_CONSUMPTION_ENERGY") ]

/-- The per-metering-point `meter_data["values"]` map: OBIS code to live
total. -/
abbrev MeterData := List (String × Option ℚ)

/-- Python dict assignment `d[k] = v`: replace the value of an existing key in
place, else add the key at the end. -/
def dictSet (d : MeterData) (k : String) (v : Option ℚ) : MeterData :=
  match d with
  | [] => [(k, v)]
  | (k0, v0) :: rest => if k0 = k then (k0, v) :: rest else (k0, v0) :: dictSet rest k v

/-- The `for sensor_type in selected_sensors` loop of
`_process_metering_point`: unknown sensor types are logged and skipped; known
ones run `_update_statistics` then `_get_current_total` and record the live
total under the OBIS code. An error propagates together with the store state
already committed at that moment. -/
def processSensorsAux (env : Env) (metering_point : String) :
    Store → MeterData → List String → Except (ApiError × Store) (MeterData × Store)
  | store, meter_data, [] => Except.ok (meter_data, store)
  | store, meter_data, sensor_type :: rest =>
    match List.lookup sensor_type SENSOR_TYPES with
    | none => processSensorsAux env metering_point store meter_data rest
    | some obis =>
      match _update_statistics env store metering_point obis with
      | Except.error e => Except.error (e, store)
      | Except.ok store2 =>
        match _get_current_total env metering_point obis with
        | Except.error e => Except.error (e, store2)
        | Except.ok current_total =>
          processSensorsAux env metering_point store2
            (dictSet meter_data obis current_total) rest

/-- Function `_process_metering_point`: process all selected sensors of one metering
point, starting from an empty `meter_data["values"]`. -/
def _process_metering_point (env : Env) (store : Store) (metering_point : String)
    (selected_sensors : List String) : Except (ApiError × Store) (MeterData × Store) :=
  processSensorsAux env metering_point store [] selected_sensors

/-- What `_async_update_data` surfaces to the host: `ConfigEntryAuthFailed`
for an `UnauthorizedException`, every other exception uncaught. -/
inductive UpdateError where
  | configEntryAuthFailed
  | uncaught (e : ApiError)
  deriving DecidableEq

/-- The `for metering_point, selected_sensors in self.metering_points.items()`
loop of `_async_update_data`, building the coordinator result map. -/
def updateLoop (env : Env) :
    Store → List (String × List String) →
      Except (ApiError × Store) (List (String × MeterData) × Store)
  | store, [] => Except.ok ([], store)
  | store, (metering_point, selected_sensors) :: rest =>
    match _process_metering_point env store metering_point selected_sensors with
    | Except.error es => Except.error es
    | Except.ok (meter_data, store2) =>
      match updateLoop env store2 rest with
      | Except.error es => Except.error es
      | Except.ok (ds, store3) => Except.ok ((metering_point, meter_data) :: ds, store3)

/-- Function `_async_update_data`: run the tick over all metering points; an
`UnauthorizedException` anywhere is converted to `ConfigEntryAuthFailed`,
any other exception escapes as itself. The error carries the store state at
the moment of the abort (appends already made remain committed). -/
def _async_update_data (env : Env) (store : Store)
    (metering_points : List (String × List String)) :
    Except (UpdateError × Store) (List (String × MeterData) × Store) :=
  match updateLoop env store metering_points with
  | Except.ok r => Except.ok r
  | Except.error (e, s) =>
    match e with
    | ApiError.unauthorized => Except.error (UpdateError.configEntryAuthFailed, s)
    | ApiError.forbidden => Except.error (UpdateError.uncaught ApiError.forbidden, s)
    | ApiError.notFound => Except.error (UpdateError.uncaught ApiError.notFound, s)

/-! ### Lemmas about the reconciliation loop -/

theorem prepareLoop_cons (lt : Option ℤ) (ls : ℚ) (p : Point) (rest : List Point) :
    prepareLoop lt ls (p :: rest) =
      if skipPoint lt p then prepareLoop lt ls rest
      else ⟨p.started_at, p.value, ls + p.value⟩ :: prepareLoop lt (ls + p.value) rest := rfl

theorem skipPoint_some (t : ℤ) (p : Point) :
    skipPoint (some t) p = true ↔ p.started_at ≤ t := by
  simp [skipPoint]

theorem skipPoint_none (p : Point) : skipPoint none p = false := rfl

/-- Every emitted entry carries the period-start and value of one of the input
points. -/
theorem mem_prepareLoop (lt : Option ℤ) (P : List Point) (e : StatisticData) :
    ∀ ls : ℚ, e ∈ prepareLoop lt ls P →
      ∃ p ∈ P, e.start = p.started_at ∧ e.state = p.value := by
  induction P with
  | nil => intro ls he; simp [prepareLoop] at he
  | cons p rest ih =>
    intro ls he
    rw [prepareLoop_cons] at he
    by_cases h : skipPoint lt p = true
    · rw [if_pos h] at he
      obtain ⟨q, hq, hq2⟩ := ih ls he
      exact ⟨q, List.mem_cons_of_mem p hq, hq2⟩
    · rw [if_neg h] at he
      rcases List.mem_cons.mp he with rfl | he'
      · exact ⟨p, List.mem_cons_self p rest, rfl, rfl⟩
      · obtain ⟨q, hq, hq2⟩ := ih (ls + p.value) he'
        exact ⟨q, List.mem_cons_of_mem p hq, hq2⟩

/-- Every entry emitted under a cutoff has a period-start strictly beyond the
cutoff. -/
theorem prepareLoop_mem_gt (t : ℤ) (P : List Point) (e : StatisticData) :
    ∀ ls : ℚ, e ∈ prepareLoop (some t) ls P → t < e.start := by
  induction P with
  | nil => intro ls he; simp [prepareLoop] at he
  | cons p rest ih =>
    intro ls he
    rw [prepareLoop_cons] at he
    by_cases h : skipPoint (some t) p = true
    · rw [if_pos h] at he
      exact ih ls he
    · rw [if_neg h] at he
      rcases List.mem_cons.mp he with rfl | he'
      · have := (skipPoint_some t p).not.mp (by simpa using h)
        simpa using Int.lt_of_not_ge (by simpa using this)
      · exact ih (ls + p.value) he'

/-- When the loop emits nothing, every input point was skipped. -/
theorem prepareLoop_eq_nil_skip (lt : Option ℤ) (P : List Point) :
    ∀ ls : ℚ, prepareLoop lt ls P = [] → ∀ p ∈ P, skipPoint lt p = true := by
  induction P with
  | nil => intro ls _ p hp; simp at hp
  | cons p rest ih =>
    intro ls h q hq
    rw [prepareLoop_cons] at h
    by_cases hs : skipPoint lt p = true
    · rw [if_pos hs] at h
      rcases List.mem_cons.mp hq with rfl | hq'
      · exact hs
      · exact ih ls h q hq'
    · rw [if_neg hs] at h
      exact absurd h (List.cons_ne_nil _ _)

/-- When every input point is at or before the cutoff, the loop emits
nothing. -/
theorem prepareLoop_eq_nil_of_all_le (t : ℤ) (P : List Point)
    (h : ∀ p ∈ P, p.started_at ≤ t) : ∀ ls : ℚ, prepareLoop (some t) ls P = [] := by
  induction P with
  | nil => intro ls; rfl
  | cons p rest ih =>
    intro ls
    rw [prepareLoop_cons,
      if_pos ((skipPoint_some t p).mpr (h p (List.mem_cons_self p rest)))]
    exact ih (fun q hq => h q (List.mem_cons_of_mem p hq)) ls

theorem getLast?_mem {α : Type} {l : List α} {a : α} (h : l.getLast? = some a) :
    a ∈ l := by
  induction l with
  | nil => simp at h
  | cons x xs ih =>
    cases xs with
    | nil => simp_all
    | cons y ys =>
      rw [List.getLast?_cons_cons] at h
      exact List.mem_cons_of_mem x (ih h)

theorem exists_getLast?_of_ne_nil {α : Type} {l : List α} (h : l ≠ []) :
    ∃ a, l.getLast? = some a := by
  cases l with
  | nil => exact absurd rfl h
  | cons x xs =>
    induction xs generalizing x with
    | nil => exact ⟨x, rfl⟩
    | cons y ys ih =>
      obtain ⟨a, ha⟩ := ih y (List.cons_ne_nil y ys)
      exact ⟨a, by rw [List.getLast?_cons_cons]; exact ha⟩

theorem getLast?_append_of_ne_nil {α : Type} (l₁ : List α) {l₂ : List α}
    (h : l₂ ≠ []) : (l₁ ++ l₂).getLast? = l₂.getLast? := by
  obtain ⟨a, ha⟩ := exists_getLast?_of_ne_nil h
  rw [List.getLast?_append, ha]
  rfl

/-- For a time-ordered input, the last emitted entry's period-start dominates
the period-starts of all input points. -/
theorem prepareLoop_last_start_ge (lt : Option ℤ) (P : List Point)
    (hsort : List.Pairwise (fun a b : Point => a.started_at ≤ b.started_at) P) :
    ∀ (ls : ℚ) (e : StatisticData), (prepareLoop lt ls P).getLast? = some e →
      ∀ p ∈ P, p.started_at ≤ e.start := by
  induction P with
  | nil => intro ls e hl; simp [prepareLoop] at hl
  | cons p rest ih =>
    have hp : ∀ q ∈ rest, p.started_at ≤ q.started_at := (List.pairwise_cons.mp hsort).1
    have hrest := (List.pairwise_cons.mp hsort).2
    intro ls e hl q hq
    rw [prepareLoop_cons] at hl
    by_cases hs : skipPoint lt p = true
    · rw [if_pos hs] at hl
      obtain ⟨t, rfl⟩ : ∃ t, lt = some t := by
        cases lt with
        | none => simp [skipPoint] at hs
        | some t => exact ⟨t, rfl⟩
      have hgt : t < e.start := prepareLoop_mem_gt t rest e ls (getLast?_mem hl)
      rcases List.mem_cons.mp hq with rfl | hq'
      · have hle : q.started_at ≤ t := (skipPoint_some t q).mp hs
        omega
      · exact ih hrest ls e hl q hq'
    · rw [if_neg hs] at hl
      cases hrec : prepareLoop lt (ls + p.value) rest with
      | nil =>
        rw [hrec] at hl
        have he : e = ⟨p.started_at, p.value, ls + p.value⟩ := by simp_all
        rcases List.mem_cons.mp hq with rfl | hq'
        · simp [he]
        · have hskipq := prepareLoop_eq_nil_skip lt rest (ls + p.value) hrec q hq'
          obtain ⟨t, rfl⟩ : ∃ t, lt = some t := by
            cases lt with
            | none => simp [skipPoint] at hskipq
            | some t => exact ⟨t, rfl⟩
          have h1 : q.started_at ≤ t := (skipPoint_some t q).mp hskipq
          have h2 : ¬ p.started_at ≤ t := by
            intro hc
            exact hs ((skipPoint_some t p).mpr hc)
          have : e.start = p.started_at := by simp [he]
          omega
      | cons e0 E =>
        rw [hrec, List.getLast?_cons_cons] at hl
        rw [← hrec] at hl
        rcases List.mem_cons.mp hq with rfl | hq'
        · obtain ⟨r, hr, hr2, _⟩ :=
            mem_prepareLoop lt rest e (ls + q.value) (getLast?_mem hl)
          rw [hr2]
          exact hp r hr
        · exact ih hrest (ls + p.value) e hl q hq'

/-! ### The running-sum invariant of emitted entries -/

/-- Predicate `sumsFrom s E`: each entry's sum extends the previous one by its own state
value, starting from `s`. -/
def sumsFrom : ℚ → List StatisticData → Prop
  | _, [] => True
  | s, e :: rest => e.sum = s + e.state ∧ sumsFrom e.sum rest

theorem sumsFrom_prepareLoop (lt : Option ℤ) (P : List Point) :
    ∀ ls : ℚ, sumsFrom ls (prepareLoop lt ls P) := by
  induction P with
  | nil => intro ls; trivial
  | cons p rest ih =>
    intro ls
    rw [prepareLoop_cons]
    by_cases hs : skipPoint lt p = true
    · rw [if_pos hs]; exact ih ls
    · rw [if_neg hs]
      exact ⟨rfl, ih (ls + p.value)⟩

theorem sumsFrom_le (E : List StatisticData) :
    ∀ s : ℚ, sumsFrom s E → (∀ e ∈ E, 0 ≤ e.state) → ∀ e ∈ E, s ≤ e.sum := by
  induction E with
  | nil => intro s _ _ e he; simp at he
  | cons e rest ih =>
    intro s hsf hnn f hf
    obtain ⟨h1, h2⟩ := hsf
    rcases List.mem_cons.mp hf with rfl | hf'
    · have := hnn f (List.mem_cons_self f rest)
      rw [h1]; linarith
    · have hs : e.sum ≤ f.sum :=
        ih e.sum h2 (fun g hg => hnn g (List.mem_cons_of_mem e hg)) f hf'
      have h0 : 0 ≤ e.state := hnn e (List.mem_cons_self e rest)
      have : s ≤ e.sum := by rw [h1]; linarith
      linarith

theorem sumsFrom_pairwise (E : List StatisticData) :
    ∀ s : ℚ, sumsFrom s E → (∀ e ∈ E, 0 ≤ e.state) →
      List.Pairwise (fun a b : StatisticData => a.sum ≤ b.sum) E := by
  induction E with
  | nil => intro _ _ _; exact List.Pairwise.nil
  | cons e rest ih =>
    intro s hsf hnn
    obtain ⟨_, h2⟩ := hsf
    have hrest : ∀ g ∈ rest, 0 ≤ g.state := fun g hg => hnn g (List.mem_cons_of_mem e hg)
    exact List.Pairwise.cons (sumsFrom_le rest e.sum h2 hrest) (ih e.sum h2 hrest)

theorem sumsFrom_get (E : List StatisticData) :
    ∀ s : ℚ, sumsFrom s E → ∀ i (hi : i < E.length),
      (E.get ⟨i, hi⟩).sum = s + ((E.take (i + 1)).map StatisticData.state).sum := by
  induction E with
  | nil => intro s _ i hi; simp at hi
  | cons e rest ih =>
    intro s hsf i hi
    obtain ⟨h1, h2⟩ := hsf
    cases i with
    | zero => simpa using h1
    | succ n =>
      have hn : n < rest.length := by simpa using hi
      have := ih e.sum h2 n hn
      simp only [List.get_cons_succ] at *
      rw [this, List.take_succ_cons, List.map_cons, List.sum_cons, h1]
      ring

/-! ### Statistic identity lemmas -/

theorem sanitizeChar_valid (c : Char) :
    ('a' ≤ sanitizeChar c ∧ sanitizeChar c ≤ 'z')
      ∨ ('0' ≤ sanitizeChar c ∧ sanitizeChar c ≤ '9') ∨ sanitizeChar c = '_' := by
  unfold sanitizeChar
  split
  · rename_i h
    rcases h with h | h
    · exact Or.inl h
    · exact Or.inr (Or.inl h)
  · exact Or.inr (Or.inr rfl)

theorem sanitizeChar_ne_colon (c : Char) : sanitizeChar c ≠ ':' := by
  intro hc
  have h := sanitizeChar_valid c
  rw [hc] at h
  revert h
  decide

theorem cleanString_data (s : String) :
    (cleanString s).data = s.data.map (fun c => sanitizeChar c.toLower) := rfl

theorem mem_cleanString (s : String) (c : Char) (hc : c ∈ (cleanString s).data) :
    ('a' ≤ c ∧ c ≤ 'z') ∨ ('0' ≤ c ∧ c ≤ '9') ∨ c = '_' := by
  rw [cleanString_data] at hc
  obtain ⟨d, _, rfl⟩ := List.mem_map.mp hc
  exact sanitizeChar_valid _

theorem count_colon_cleanString (s : String) :
    List.count ':' (cleanString s).data = 0 := by
  apply List.count_eq_zero.mpr
  intro hc
  rw [cleanString_data] at hc
  obtain ⟨d, _, hd⟩ := List.mem_map.mp hc
  exact sanitizeChar_ne_colon _ hd

theorem create_statistic_id_data (metering_point obis : String) :
    (_create_statistic_id metering_point obis).data =
      DOMAIN.data ++ [':'] ++ (cleanString metering_point).data ++ ['_']
        ++ (cleanString obis).data := by
  simp only [_create_statistic_id, String.data_append]

/-- C7: the Statistic Identity function is deterministic, and its output is
built from the lower-cased inputs with every character outside `[a-z0-9]`
replaced by an underscore, concatenated as `<namespace>:<metering_point>_<code>`,
so the result contains only lowercase alphanumerics, underscores, and exactly
one namespace-separator colon. -/
theorem C7_statistic_identity (metering_point obis mp2 obis2 : String) :
    (metering_point = mp2 → obis = obis2 →
      _create_statistic_id metering_point obis = _create_statistic_id mp2 obis2)
    ∧ List.count ':' (_create_statistic_id metering_point obis).data = 1
    ∧ ∀ c ∈ (_create_statistic_id metering_point obis).data,
        c = ':' ∨ ('a' ≤ c ∧ c ≤ 'z') ∨ ('0' ≤ c ∧ c ≤ '9') ∨ c = '_' := by
  refine ⟨fun h1 h2 => by rw [h1, h2], ?_, ?_⟩
  · rw [create_statistic_id_data, List.count_append, List.count_append,
      List.count_append, List.count_append, count_colon_cleanString,
      count_colon_cleanString]
    decide
  · intro c hc
    rw [create_statistic_id_data] at hc
    simp only [List.mem_append] at hc
    rcases hc with ((((hd | hcol) | hmp) | hund) | hob)
    · fin_cases hd <;> decide
    · simp only [List.mem_singleton] at hcol
      exact Or.inl hcol
    · exact Or.inr (mem_cleanString metering_point c hmp)
    · simp only [List.mem_singleton] at hund
      subst hund
      decide
    · exact Or.inr (mem_cleanString obis c hob)

/-- C7 witness: the identity of the spec's example pair is well-formed. -/
theorem C7_statistic_identity_witness :
    _create_statistic_id "LU000001" "E-CONS.ACTIVE" = _create_statistic_id "LU000001" "E-CONS.ACTIVE"
    ∧ List.count ':' (_create_statistic_id "LU000001" "E-CONS.ACTIVE").data = 1 :=
  ⟨(C7_statistic_identity "LU000001" "E-CONS.ACTIVE" "LU000001" "E-CONS.ACTIVE").1 rfl rfl,
   (C7_statistic_identity "LU000001" "E-CONS.ACTIVE" "LU000001" "E-CONS.ACTIVE").2.1⟩

/-! ### End-to-end scenario -/

/-- The two hourly points of the spec's end-to-end scenario: consecutive hours
with values 1.5 and 2.0. -/
def scenarioPoints : List Point := [⟨0, 3/2⟩, ⟨3600, 2⟩]

/-- The environment of the end-to-end scenario: the year-to-date query returns
the same two points. -/
def envC8 : Env :=
  ⟨0, fun _ _ _ _ => Except.ok [], fun _ _ => Except.ok scenarioPoints⟩

/-- C8: with no prior stored data, reconciling two consecutive hourly points
with values 1.5 and 2.0 emits exactly two entries with cumulative sums 1.5 and
3.5, and the live year-to-date total over the same two points is 3.5. -/
theorem C8_end_to_end :
    _prepare_statistics (storeLastRow []) scenarioPoints
      = [⟨0, 3/2, 3/2⟩, ⟨3600, 2, 7/2⟩]
    ∧ _get_current_total envC8 "LU000001" "ELEC_CONSUMPTION_ACTIVE"
      = Except.ok (some (7/2)) := by
  constructor
  · simp [_prepare_statistics, prepareLoop, skipPoint, storeLastRow, lastStatsTimeOf,
      lastSumInit, scenarioPoints]
    norm_num
  · simp [_get_current_total, envC8, sumPoints, scenarioPoints]
    norm_num

/-! ### C2: the dedup cutoff -/

/-- The Reconciliation Engine as claim C2 words it (a spec-side definition,
for comparison with `_prepare_statistics`): the running sum starts from the
last stored cumulative sum (0.0 if absent) and the dedup cutoff is the last
stored PERIOD-START timestamp. -/
def prepare_statistics_specC2 (series : List StatisticData) (time_series : List Point) :
    List StatisticData :=
  match series.getLast? with
  | none => prepareLoop none 0 time_series
  | some last => prepareLoop (some last.start) last.sum time_series

/-- C2 counterexample: one stored entry with period-start 0 (hence stored end
timestamp 3600) and one fetched point at period-start 3600. The claim's
period-start cutoff accepts the point and emits an entry; the code compares
against the stored row's end timestamp and discards it. -/
theorem C2_counterexample :
    _prepare_statistics (storeLastRow [⟨0, 1, 1⟩]) [⟨3600, 2⟩] = []
    ∧ prepare_statistics_specC2 [⟨0, 1, 1⟩] [⟨3600, 2⟩] = [⟨3600, 2, 3⟩] := by
  constructor
  · simp [_prepare_statistics, prepareLoop, skipPoint, storeLastRow, lastStatsTimeOf,
      lastSumInit, hourSeconds]
  · simp [prepare_statistics_specC2, prepareLoop, skipPoint]
    norm_num

/-- C2 amended: the Reconciliation Engine initializes its running sum from the
last stored cumulative sum (0.0 when the row is absent or its sum is `None`),
and for each fetched point in order it discards the point when its
period-start timestamp is less than or equal to the stored row's END
timestamp; otherwise it adds the point's value to the running sum and emits
`(period_start, value, running_sum)`. -/
theorem C2_prepare_statistics_behavior (existing_stats : Option StatsRow)
    (time_series : List Point) :
    _prepare_statistics existing_stats time_series
      = prepareLoop (lastStatsTimeOf existing_stats) (lastSumInit existing_stats) time_series
    ∧ lastSumInit none = 0
    ∧ (∀ (e : ℤ) (s : ℚ), lastSumInit (some ⟨e, some s⟩) = s)
    ∧ (∀ e : ℤ, lastSumInit (some ⟨e, none⟩) = 0)
    ∧ lastStatsTimeOf existing_stats = existing_stats.map StatsRow.endTs
    ∧ (∀ (t : ℤ) (ls : ℚ) (p : Point) (rest : List Point), p.started_at ≤ t →
        prepareLoop (some t) ls (p :: rest) = prepareLoop (some t) ls rest)
    ∧ (∀ (t : ℤ) (ls : ℚ) (p : Point) (rest : List Point), t < p.started_at →
        prepareLoop (some t) ls (p :: rest)
          = ⟨p.started_at, p.value, ls + p.value⟩ :: prepareLoop (some t) (ls + p.value) rest)
    ∧ (∀ (ls : ℚ) (p : Point) (rest : List Point),
        prepareLoop none ls (p :: rest)
          = ⟨p.started_at, p.value, ls + p.value⟩ :: prepareLoop none (ls + p.value) rest) := by
  refine ⟨rfl, rfl, fun e s => rfl, fun e => rfl, rfl, ?_, ?_, ?_⟩
  · intro t ls p rest h
    rw [prepareLoop_cons, if_pos ((skipPoint_some t p).mpr h)]
  · intro t ls p rest h
    rw [prepareLoop_cons, if_neg]
    intro hc
    have := (skipPoint_some t p).mp hc
    omega
  · intro ls p rest
    rw [prepareLoop_cons, if_neg]
    simp [skipPoint_none]

/-- C2 witness: both loop step shapes at concrete inputs. -/
theorem C2_prepare_statistics_behavior_witness :
    prepareLoop (some 10) 1 [⟨5, 2⟩] = prepareLoop (some 10) 1 []
    ∧ prepareLoop (some 10) 1 [⟨11, 2⟩]
        = ⟨11, 2, 1 + 2⟩ :: prepareLoop (some 10) (1 + 2) [] :=
  ⟨(C2_prepare_statistics_behavior none []).2.2.2.2.2.1 10 1 ⟨5, 2⟩ [] (by decide),
   (C2_prepare_statistics_behavior none []).2.2.2.2.2.2.1 10 1 ⟨11, 2⟩ [] (by decide)⟩

/-! ### C10: existing row with a `None` sum -/

/-- C10: when the existing row is present but its stored sum is `None`, the
running sum restarts from 0.0 while the dedup cutoff is still the row's end
timestamp: the engine behaves exactly like the loop with cutoff `endTs` and
initial sum 0; every emitted entry lies strictly beyond the cutoff; and the
first emitted entry's cumulative sum equals its own state value (the
previously accumulated total is not continued). -/
theorem C10_sum_none_restarts (endTs : ℤ) (time_series : List Point) :
    _prepare_statistics (some ⟨endTs, none⟩) time_series
      = prepareLoop (some endTs) 0 time_series
    ∧ (∀ e ∈ _prepare_statistics (some ⟨endTs, none⟩) time_series, endTs < e.start)
    ∧ (∀ e : StatisticData,
        (_prepare_statistics (some ⟨endTs, none⟩) time_series).head? = some e →
          e.sum = e.state) := by
  refine ⟨rfl, ?_, ?_⟩
  · intro e he
    exact prepareLoop_mem_gt endTs time_series e 0 he
  · intro e he
    have hsf : sumsFrom 0 (prepareLoop (some endTs) 0 time_series) :=
      sumsFrom_prepareLoop (some endTs) time_series 0
    have : _prepare_statistics (some ⟨endTs, none⟩) time_series
        = prepareLoop (some endTs) 0 time_series := rfl
    rw [this] at he
    cases hL : prepareLoop (some endTs) 0 time_series with
    | nil => rw [hL] at he; simp at he
    | cons e0 rest =>
      rw [hL] at he hsf
      simp only [List.head?] at he
      obtain rfl : e0 = e := by injection he
      have h1 := hsf.1
      rw [h1]
      ring

/-- C10 witness: cutoff 0 with a stale point and a fresh point. -/
theorem C10_sum_none_restarts_witness :
    _prepare_statistics (some ⟨0, none⟩) [⟨-5, 7⟩, ⟨100, 2⟩]
      = prepareLoop (some 0) 0 [⟨-5, 7⟩, ⟨100, 2⟩]
    ∧ (0 : ℤ) < (100 : ℤ) := by
  constructor
  · exact (C10_sum_none_restarts 0 [⟨-5, 7⟩, ⟨100, 2⟩]).1
  · have hmem : (⟨100, 2, 2⟩ : StatisticData)
        ∈ _prepare_statistics (some ⟨0, none⟩) [⟨-5, 7⟩, ⟨100, 2⟩] := by
      have : _prepare_statistics (some (⟨0, none⟩ : StatsRow)) [⟨-5, 7⟩, ⟨100, 2⟩]
          = [⟨100, 2, 2⟩] := by
        simp [_prepare_statistics, prepareLoop, skipPoint, lastStatsTimeOf, lastSumInit]
      rw [this]
      exact List.mem_singleton.mpr rfl
    exact (C10_sum_none_restarts 0 [⟨-5, 7⟩, ⟨100, 2⟩]).2.1 ⟨100, 2, 2⟩ hmem

/-! ### C6: monotone cumulative sums -/

/-- C6: for non-negative fetched values, the emitted cumulative sums are
non-decreasing, and each emitted sum equals the initial stored cumulative sum
plus the sum of the state values of all accepted entries up to and including
that one. -/
theorem C6_monotone_cumulative_sum (existing_stats : Option StatsRow)
    (time_series : List Point) (hnn : ∀ p ∈ time_series, 0 ≤ p.value) :
    List.Pairwise (fun a b : ℚ => a ≤ b)
      ((_prepare_statistics existing_stats time_series).map StatisticData.sum)
    ∧ ∀ i (hi : i < (_prepare_statistics existing_stats time_series).length),
        ((_prepare_statistics existing_stats time_series).get ⟨i, hi⟩).sum
          = lastSumInit existing_stats
            + (((_prepare_statistics existing_stats time_series).take (i + 1)).map
                StatisticData.state).sum := by
  have hsf : sumsFrom (lastSumInit existing_stats)
      (_prepare_statistics existing_stats time_series) :=
    sumsFrom_prepareLoop (lastStatsTimeOf existing_stats) time_series
      (lastSumInit existing_stats)
  have hstates : ∀ e ∈ _prepare_statistics existing_stats time_series, 0 ≤ e.state := by
    intro e he
    obtain ⟨p, hp, _, hv⟩ :=
      mem_prepareLoop (lastStatsTimeOf existing_stats) time_series e
        (lastSumInit existing_stats) he
    rw [hv]
    exact hnn p hp
  constructor
  · rw [List.pairwise_map]
    exact sumsFrom_pairwise _ _ hsf hstates
  · exact sumsFrom_get _ _ hsf

/-- C6 witness: two accepted non-negative points. -/
theorem C6_monotone_cumulative_sum_witness :
    List.Pairwise (fun a b : ℚ => a ≤ b)
      ((_prepare_statistics none [⟨0, 1⟩, ⟨3600, 2⟩]).map StatisticData.sum) :=
  (C6_monotone_cumulative_sum none [⟨0, 1⟩, ⟨3600, 2⟩] (by
    intro p hp
    simp only [List.mem_cons, List.mem_singleton] at hp
    rcases hp with rfl | rfl | hp
    · norm_num
    · norm_num
    · simp at hp)).1

/-! ### C1: idempotent reconciliation -/

/-- C1: reconciliation is idempotent. For any stored series and any
time-ordered fetched sequence (overlapping the stored data by any number of
trailing points), running the Reconciliation Engine a second time over the
same input — now against the store extended by the first run's output —
emits zero entries, leaves the store unchanged, and leaves the cumulative sum
equal to the one after the single first run. -/
theorem C1_idempotent_reconciliation (S0 : List StatisticData) (P : List Point)
    (hsort : List.Pairwise (fun a b : Point => a.started_at ≤ b.started_at) P) :
    ∀ E1 E2 : List StatisticData,
      E1 = _prepare_statistics (storeLastRow S0) P →
      E2 = _prepare_statistics (storeLastRow (S0 ++ E1)) P →
      E2 = [] ∧ S0 ++ E1 ++ E2 = S0 ++ E1
        ∧ storeFinalSum (S0 ++ E1 ++ E2) = storeFinalSum (S0 ++ E1) := by
  intro E1 E2 h1 h2
  have hE2 : E2 = [] := by
    cases hE1 : E1 with
    | nil =>
      rw [hE1, List.append_nil] at h2
      rw [h2, ← h1, hE1]
    | cons e0 E1' =>
      have hne : E1 ≠ [] := by rw [hE1]; exact List.cons_ne_nil _ _
      obtain ⟨last, hlast⟩ := exists_getLast?_of_ne_nil hne
      have hpl : _prepare_statistics (storeLastRow S0) P
          = prepareLoop (lastStatsTimeOf (storeLastRow S0)) (lastSumInit (storeLastRow S0)) P :=
        rfl
      have hlast' : (prepareLoop (lastStatsTimeOf (storeLastRow S0))
          (lastSumInit (storeLastRow S0)) P).getLast? = some last := by
        rw [← hpl, ← h1]
        exact hlast
      have hall : ∀ p ∈ P, p.started_at ≤ last.start :=
        prepareLoop_last_start_ge _ P hsort _ last hlast'
      have hrow : storeLastRow (S0 ++ E1) = some ⟨last.start + hourSeconds, some last.sum⟩ := by
        unfold storeLastRow
        rw [getLast?_append_of_ne_nil S0 hne, hlast]
        rfl
      have hprep2 : _prepare_statistics (storeLastRow (S0 ++ E1)) P
          = prepareLoop (some (last.start + hourSeconds))
              (lastSumInit (storeLastRow (S0 ++ E1))) P := by
        simp only [_prepare_statistics, lastStatsTimeOf, hrow, Option.map_some']
      rw [h2, hprep2]
      apply prepareLoop_eq_nil_of_all_le
      intro p hp
      have h1p := hall p hp
      have h36 : hourSeconds = 3600 := rfl
      omega
  exact ⟨hE2, by rw [hE2, List.append_nil], by rw [hE2, List.append_nil]⟩

/-- C1 witness: a concrete empty store and two ordered points. -/
theorem C1_idempotent_reconciliation_witness :
    _prepare_statistics
      (storeLastRow ([] ++ _prepare_statistics (storeLastRow []) [⟨0, 1⟩, ⟨3600, 2⟩]))
      [⟨0, 1⟩, ⟨3600, 2⟩] = [] :=
  (C1_idempotent_reconciliation [] [⟨0, 1⟩, ⟨3600, 2⟩]
    (by
      refine List.Pairwise.cons ?_ (List.pairwise_singleton _ _)
      intro b hb
      rw [List.mem_singleton.mp hb]
      decide)
    _ _ rfl rfl).1

/-! ### C3: the fetch window planner -/

/-- C3: the Fetch Window Planner. The baseline is the last stored entry's end
timestamp, or the distant-past epoch when no entry exists; the planner skips
exactly when `now - 1 day < baseline`, and a skip leaves the store untouched
without fetching. Otherwise the tick runs the fetch pipeline over the window
from `baseline - 1 day` to `now`. -/
theorem C3_fetch_window (env : Env) (store : Store) (metering_point obis : String) :
    _get_statistics_start_date none = STATISTICS_PERIOD_START
    ∧ (∀ t : ℤ, _get_statistics_start_date (some t) = t)
    ∧ (planFetchWindow env.now
          (get_last_statistics_end store (_create_statistic_id metering_point obis)) = none
        ↔ env.now - oneDay <
            _get_statistics_start_date
              (get_last_statistics_end store (_create_statistic_id metering_point obis)))
    ∧ (planFetchWindow env.now
          (get_last_statistics_end store (_create_statistic_id metering_point obis)) = none →
        _update_statistics env store metering_point obis = Except.ok store)
    ∧ (∀ s e : ℤ,
        planFetchWindow env.now
          (get_last_statistics_end store (_create_statistic_id metering_point obis))
            = some (s, e) →
        s = _get_statistics_start_date
              (get_last_statistics_end store (_create_statistic_id metering_point obis))
            - oneDay
        ∧ e = env.now
        ∧ _update_statistics env store metering_point obis
            = fetchBranch env store metering_point obis s e) := by
  refine ⟨rfl, fun t => rfl, ?_, ?_, ?_⟩
  · unfold planFetchWindow
    by_cases hc : env.now - oneDay <
        _get_statistics_start_date
          (get_last_statistics_end store (_create_statistic_id metering_point obis))
    · rw [if_pos hc]
      simp [hc]
    · rw [if_neg hc]
      simp [hc]
  · intro h
    unfold planFetchWindow at h
    by_cases hc : env.now - oneDay <
        _get_statistics_start_date
          (get_last_statistics_end store (_create_statistic_id metering_point obis))
    · unfold _update_statistics
      rw [if_pos hc]
    · rw [if_neg hc] at h
      exact absurd h (by simp)
  · intro s e h
    unfold planFetchWindow at h
    by_cases hc : env.now - oneDay <
        _get_statistics_start_date
          (get_last_statistics_end store (_create_statistic_id metering_point obis))
    · rw [if_pos hc] at h
      exact absurd h (by simp)
    · rw [if_neg hc] at h
      simp only [Option.some.injEq, Prod.mk.injEq] at h
      obtain ⟨hs, he⟩ := h
      subst hs
      subst he
      refine ⟨rfl, rfl, ?_⟩
      unfold _update_statistics
      rw [if_neg hc]

/-- Environment whose clock sits at the epoch, making every stored-data-free
window plan a skip. -/
def envSkip : Env :=
  ⟨946684800, fun _ _ _ _ => Except.ok [], fun _ _ => Except.ok []⟩

/-- Environment ten days past the epoch with empty fetch results. -/
def envGo : Env :=
  ⟨946684800 + 864000, fun _ _ _ _ => Except.ok [], fun _ _ => Except.ok []⟩

/-- C3 witness: both planner branches at concrete inputs. -/
theorem C3_fetch_window_witness :
    _update_statistics envSkip [] "mp" "obis" = Except.ok []
    ∧ _update_statistics envGo [] "mp" "obis" = Except.ok [] := by
  constructor
  · exact (C3_fetch_window envSkip [] "mp" "obis").2.2.2.1 (by decide)
  · have h := ((C3_fetch_window envGo [] "mp" "obis").2.2.2.2
      (946684800 - 86400) (946684800 + 864000) (by decide)).2.2
    rw [h]
    rfl

/-! ### Tick error propagation -/

theorem updateLoop_nil (env : Env) (store : Store) :
    updateLoop env store [] = Except.ok ([], store) := rfl

theorem updateLoop_cons (env : Env) (store : Store) (mp : String) (ss : List String)
    (rest : List (String × List String)) :
    updateLoop env store ((mp, ss) :: rest) =
      match _process_metering_point env store mp ss with
      | Except.error es => Except.error es
      | Except.ok (md, store2) =>
        match updateLoop env store2 rest with
        | Except.error es => Except.error es
        | Except.ok (ds, store3) => Except.ok ((mp, md) :: ds, store3) := rfl

/-- Running the loop over a successful prefix and then a failing remainder
fails with the remainder's error. -/
theorem updateLoop_ok_then_error (env : Env) (mps1 : List (String × List String)) :
    ∀ (store s1 : Store) (ds : List (String × MeterData))
      (rest : List (String × List String)) (es : ApiError × Store),
      updateLoop env store mps1 = Except.ok (ds, s1) →
      updateLoop env s1 rest = Except.error es →
      updateLoop env store (mps1 ++ rest) = Except.error es := by
  induction mps1 with
  | nil =>
    intro store s1 ds rest es h1 h2
    rw [updateLoop_nil] at h1
    injection h1 with h1'
    injection h1' with hds hs
    subst hs
    simpa using h2
  | cons hd tl ih =>
    intro store s1 ds rest es h1 h2
    obtain ⟨mp0, ss0⟩ := hd
    rw [updateLoop_cons] at h1
    rw [List.cons_append, updateLoop_cons]
    cases hpm : _process_metering_point env store mp0 ss0 with
    | error es0 =>
      rw [hpm] at h1
      simp at h1
    | ok r =>
      obtain ⟨md, store2⟩ := r
      rw [hpm] at h1
      simp only at h1
      simp only
      cases hul : updateLoop env store2 tl with
      | error es1 =>
        rw [hul] at h1
        simp at h1
      | ok r2 =>
        obtain ⟨ds2, store3⟩ := r2
        rw [hul] at h1
        simp only at h1
        injection h1 with h1'
        injection h1' with hds hs
        subst hs
        rw [ih store2 store3 ds2 rest es hul h2]

/-- C4 amended: when a channel's fetch fails with an authentication-rejected
error, the tick aborts at that channel — later metering points are not
processed and no result map is produced — and `ConfigEntryAuthFailed` is
raised; the store state carried out is the one at the failing channel, so
entries appended by earlier channels in the same tick remain committed. -/
theorem C4_auth_failure_aborts (env : Env) (store s1 s2 : Store)
    (ds : List (String × MeterData)) (mps1 mps2 : List (String × List String))
    (mp : String) (sensors : List String)
    (h1 : updateLoop env store mps1 = Except.ok (ds, s1))
    (h2 : _process_metering_point env s1 mp sensors
        = Except.error (ApiError.unauthorized, s2)) :
    _async_update_data env store (mps1 ++ (mp, sensors) :: mps2)
      = Except.error (UpdateError.configEntryAuthFailed, s2) := by
  have hrest : updateLoop env s1 ((mp, sensors) :: mps2)
      = Except.error (ApiError.unauthorized, s2) := by
    rw [updateLoop_cons, h2]
  have hloop := updateLoop_ok_then_error env mps1 store s1 ds
    ((mp, sensors) :: mps2) (ApiError.unauthorized, s2) h1 hrest
  unfold _async_update_data
  rw [hloop]

/-- C5 amended: a non-authentication fetch failure (forbidden or not-found) on
a single channel is not contained: it propagates out of the tick uncaught —
the tick aborts at that channel, later metering points are not processed, no
result map is produced — and no re-authentication signal is raised in its
place. -/
theorem C5_forbidden_not_contained (env : Env) (store s1 s2 : Store)
    (ds : List (String × MeterData)) (mps1 mps2 : List (String × List String))
    (mp : String) (sensors : List String) (e : ApiError)
    (he : e ≠ ApiError.unauthorized)
    (h1 : updateLoop env store mps1 = Except.ok (ds, s1))
    (h2 : _process_metering_point env s1 mp sensors = Except.error (e, s2)) :
    _async_update_data env store (mps1 ++ (mp, sensors) :: mps2)
      = Except.error (UpdateError.uncaught e, s2) := by
  have hrest : updateLoop env s1 ((mp, sensors) :: mps2) = Except.error (e, s2) := by
    rw [updateLoop_cons, h2]
  have hloop := updateLoop_ok_then_error env mps1 store s1 ds
    ((mp, sensors) :: mps2) (e, s2) h1 hrest
  unfold _async_update_data
  rw [hloop]
  cases e with
  | unauthorized => exact absurd rfl he
  | forbidden => rfl
  | notFound => rfl

/-! ### C9: unknown sensor types -/

/-- C9: a channel identifier present in the configuration but absent from the
catalog is skipped: the sensor loop continues with the remaining channels of
the same metering point unchanged, and the tick is not aborted. -/
theorem C9_unknown_sensor_skipped (env : Env) (store : Store) (metering_point : String)
    (meter_data : MeterData) (bad : String)
    (hbad : List.lookup bad SENSOR_TYPES = none) (rest : List String) :
    processSensorsAux env metering_point store meter_data (bad :: rest)
        = processSensorsAux env metering_point store meter_data rest
    ∧ _process_metering_point env store metering_point (bad :: rest)
        = _process_metering_point env store metering_point rest := by
  constructor
  · simp only [processSensorsAux, hbad]
  · simp only [_process_metering_point, processSensorsAux, hbad]

/-- C9 witness: a bogus sensor name ahead of a real one. -/
theorem C9_unknown_sensor_skipped_witness :
    _process_metering_point envSkip [] "mp" ["bogus_sensor", "electricity_consumption_active"]
      = _process_metering_point envSkip [] "mp" ["electricity_consumption_active"] :=
  (C9_unknown_sensor_skipped envSkip [] "mp" [] "bogus_sensor" (by decide)
    ["electricity_consumption_active"]).2

/-! ### C4 and C5 concrete scenarios -/

/-- Environment of the C4 counterexample: the hourly fetch succeeds with one
point for metering point `mp1` and is rejected as unauthorized for `mp2`;
year-to-date queries return nothing. -/
def envC4 : Env :=
  ⟨1000000000,
   fun mp _ _ _ =>
     if mp = "mp1" then Except.ok [⟨999000000, 1⟩] else Except.error ApiError.unauthorized,
   fun _ _ => Except.ok []⟩

/-- Two metering points, each tracking the active-consumption channel. -/
def mpsTwo : List (String × List String) :=
  [("mp1", ["electricity_consumption_active"]),
   ("mp2", ["electricity_consumption_active"])]

/-- The store after `mp1`'s channel appended its entry. -/
def storeAfterMp1 : Store :=
  [(_create_statistic_id "mp1" "ELEC_CONSUMPTION_ACTIVE", [⟨999000000, 1, 1⟩])]

theorem lookup_active :
    List.lookup "electricity_consumption_active" SENSOR_TYPES
      = some "ELEC_CONSUMPTION_ACTIVE" := by decide

theorem sid_mp1_ne_mp2 :
    _create_statistic_id "mp1" "ELEC_CONSUMPTION_ACTIVE"
      ≠ _create_statistic_id "mp2" "ELEC_CONSUMPTION_ACTIVE" := by decide

theorem processC4_mp1 :
    _process_metering_point envC4 [] "mp1" ["electricity_consumption_active"]
      = Except.ok ([("ELEC_CONSUMPTION_ACTIVE", none)], storeAfterMp1) := by
  simp [_process_metering_point, processSensorsAux, lookup_active, _update_statistics,
    envC4, get_last_statistics_end, storeGet, _get_statistics_start_date,
    STATISTICS_PERIOD_START, oneDay, fetchBranch, _fetch_hourly_data,
    _process_and_store_statistics, _get_existing_statistics, storeLastRow,
    _prepare_statistics, prepareLoop, skipPoint, lastStatsTimeOf, lastSumInit,
    _store_statistics, storeAppend, _get_current_total, dictSet, storeAfterMp1]

theorem processC4_mp2 :
    _process_metering_point envC4 storeAfterMp1 "mp2" ["electricity_consumption_active"]
      = Except.error (ApiError.unauthorized, storeAfterMp1) := by
  simp [_process_metering_point, processSensorsAux, lookup_active, _update_statistics,
    envC4, get_last_statistics_end, storeGet, storeAfterMp1, sid_mp1_ne_mp2,
    _get_statistics_start_date, STATISTICS_PERIOD_START, oneDay, fetchBranch,
    _fetch_hourly_data]

/-- C4 counterexample: with two channels in one tick, an authentication
failure on the second channel's fetch raises the re-authentication failure —
but the entries appended by the first channel earlier in the same tick remain
in the store, refuting "no new statistics entries appended for any channel in
that tick". -/
theorem C4_counterexample :
    _async_update_data envC4 [] mpsTwo
      = Except.error (UpdateError.configEntryAuthFailed, storeAfterMp1)
    ∧ storeAfterMp1 ≠ ([] : Store) := by
  constructor
  · simp only [_async_update_data, mpsTwo, updateLoop_cons, processC4_mp1, processC4_mp2]
  · simp [storeAfterMp1]

/-- Environment whose every hourly fetch is rejected as unauthorized. -/
def envAuthFail : Env :=
  ⟨1000000000, fun _ _ _ _ => Except.error ApiError.unauthorized, fun _ _ => Except.ok []⟩

/-- C4 witness: the amended abort behavior at a concrete tick. -/
theorem C4_auth_failure_aborts_witness :
    _async_update_data envAuthFail [] [("mp1", ["electricity_consumption_active"])]
      = Except.error (UpdateError.configEntryAuthFailed, []) :=
  C4_auth_failure_aborts envAuthFail [] [] [] [] [] []
    "mp1" ["electricity_consumption_active"] rfl rfl

/-- Environment of the C5 counterexample: the hourly fetch is forbidden for
`mp1` and succeeds for `mp2`; year-to-date queries return one point. -/
def envC5 : Env :=
  ⟨1000000000,
   fun mp _ _ _ =>
     if mp = "mp1" then Except.error ApiError.forbidden else Except.ok [⟨999000000, 1⟩],
   fun _ _ => Except.ok [⟨999000000, 1⟩]⟩

/-- C5 counterexample: a forbidden failure on `mp1`'s channel aborts the whole
tick with a raised (uncaught) failure and an unchanged store — even though
`mp2`'s channel alone would have processed successfully — refuting both "every
other channel's processing proceeds unaffected" and "no failure signal is
raised to the host". -/
theorem C5_counterexample :
    _async_update_data envC5 [] mpsTwo
      = Except.error (UpdateError.uncaught ApiError.forbidden, [])
    ∧ _process_metering_point envC5 [] "mp2" ["electricity_consumption_active"]
        = Except.ok ([("ELEC_CONSUMPTION_ACTIVE", some 1)],
            [(_create_statistic_id "mp2" "ELEC_CONSUMPTION_ACTIVE", [⟨999000000, 1, 1⟩])]) := by
  constructor
  · have hmp1 : _process_metering_point envC5 [] "mp1" ["electricity_consumption_active"]
        = Except.error (ApiError.forbidden, []) := by
      simp [_process_metering_point, processSensorsAux, lookup_active, _update_statistics,
        envC5, get_last_statistics_end, storeGet, _get_statistics_start_date,
        STATISTICS_PERIOD_START, oneDay, fetchBranch, _fetch_hourly_data]
    simp only [_async_update_data, mpsTwo, updateLoop_cons, hmp1]
  · simp [_process_metering_point, processSensorsAux, lookup_active, _update_statistics,
      envC5, get_last_statistics_end, storeGet, _get_statistics_start_date,
      STATISTICS_PERIOD_START, oneDay, fetchBranch, _fetch_hourly_data,
      _process_and_store_statistics, _get_existing_statistics, storeLastRow,
      _prepare_statistics, prepareLoop, skipPoint, lastStatsTimeOf, lastSumInit,
      _store_statistics, storeAppend, _get_current_total, sumPoints, dictSet]

/-- C5 witness: the amended propagation behavior at a concrete tick. -/
theorem C5_forbidden_not_contained_witness :
    _async_update_data envC5 [] mpsTwo
      = Except.error (UpdateError.uncaught ApiError.forbidden, []) :=
  C5_forbidden_not_contained envC5 [] [] [] [] []
    [("mp2", ["electricity_consumption_active"])] "mp1" ["electricity_consumption_active"]
    ApiError.forbidden (by decide) rfl rfl

end Leneda
